import Mathlib

/-!
Verification of the firefly-ec2-drift-detector core against its
natural-language specification.

The development shallowly embeds the three core subsystems:

* the type-aware attribute comparator (`models/models.go`),
* the EC2 state fetcher with retry/backoff and error classification
  (`aws/aws.go`, the retry-capable `EC2StateProvider`),
* the drift orchestrator (`service/service.go`).

Go `map[string]string` values are modelled as association lists with unique
keys (`List (String × String)`).  Go iterates maps in an unspecified,
deliberately randomized order; wherever the source ranges over a map we pass
the key list through an explicit enumeration parameter `σ : List String →
List String`, constrained in theorems to return a permutation of its input.
Durations are modelled in whole seconds as `Nat` (all durations involved are
integral seconds).  Goroutine scheduling in concurrent mode is modelled by an
explicit `arrival : List String` giving the order in which per-instance
results are received on the result channel; theorems constrain it to a
permutation of the requested ids.
-/

namespace Firefly

/-! ## Data model (`models/models.go`) -/

/-- Go `type DriftType string`. -/
abbrev DriftType := String

def DriftTypeValueMismatch : DriftType := "VALUE_MISMATCH"

def DriftTypeMissingInstance : DriftType := "MISSING_IN_INSTANCE"

def DriftTypeExtraInInstance : DriftType := "EXTRA_IN_INSTANCE"

def DriftTypeMissingInTerraform : DriftType := "MISSING_IN_TERRAFORM"

/-- `models.InstanceState`.  `Tags` is a Go `map[string]string`, modelled as
an association list with unique keys. -/
structure InstanceState where
  InstanceID : String
  InstanceType : String
  AvailabilityZone : String
  SecurityGroups : List String
  Tags : List (String × String)
  SubnetID : String
  ImageID : String
  KeyName : String
  Monitoring : Bool
deriving DecidableEq, Repr

/-- The dynamic values produced by `getAttributeValue` via reflection:
an `interface{}` holding a string, bool, `[]string` or `map[string]string`. -/
inductive AttrValue where
  | str (s : String)
  | boolean (b : Bool)
  | strList (l : List String)
  | strMap (m : List (String × String))
deriving DecidableEq, Repr

/-- `models.AttributeDrift`.  The `interface{}` expected/actual values are
`Option AttrValue`, `none` standing for a nil interface. -/
structure AttributeDrift where
  AttributeName : String
  ExpectedValue : Option AttrValue
  ActualValue : Option AttrValue
  DriftType : DriftType
  Details : String
deriving DecidableEq, Repr

/-- `models.DriftReport`. -/
structure DriftReport where
  InstanceID : String
  HasDrift : Bool
  Drifts : List AttributeDrift
  CheckedAttrs : List String
deriving DecidableEq, Repr

/-- `(*DriftReport).AddDrift`: append an entry (empty detail) and set
`HasDrift`. -/
def DriftReport.AddDrift (d : DriftReport) (attr : String)
    (expected actual : Option AttrValue) (driftType : DriftType) : DriftReport :=
  { d with
    Drifts := d.Drifts ++ [{ AttributeName := attr, ExpectedValue := expected,
                             ActualValue := actual, DriftType := driftType,
                             Details := "" }]
    HasDrift := true }

/-- `(*DriftReport).AddDriftWithDetails`. -/
def DriftReport.AddDriftWithDetails (d : DriftReport) (attr : String)
    (expected actual : Option AttrValue) (driftType : DriftType)
    (details : String) : DriftReport :=
  { d with
    Drifts := d.Drifts ++ [{ AttributeName := attr, ExpectedValue := expected,
                             ActualValue := actual, DriftType := driftType,
                             Details := details }]
    HasDrift := true }

/-- `getAttributeValue`: reflection over `InstanceState` field names.  A name
that is not a field of the struct yields a nil interface (`none`). -/
def getAttributeValue (attr : String) (state : InstanceState) : Option AttrValue :=
  if attr = "InstanceID" then some (.str state.InstanceID)
  else if attr = "InstanceType" then some (.str state.InstanceType)
  else if attr = "AvailabilityZone" then some (.str state.AvailabilityZone)
  else if attr = "SecurityGroups" then some (.strList state.SecurityGroups)
  else if attr = "Tags" then some (.strMap state.Tags)
  else if attr = "SubnetID" then some (.str state.SubnetID)
  else if attr = "ImageID" then some (.str state.ImageID)
  else if attr = "KeyName" then some (.str state.KeyName)
  else if attr = "Monitoring" then some (.boolean state.Monitoring)
  else none

/-- `compareStringSlices` (the comparator's order-independent,
duplicate-count-sensitive slice equality): equal lengths, then sort both
copies and compare elementwise.  `sort.Strings` is modelled by
`List.insertionSort (· ≤ ·)`; any correct sort of strings produces the same
list, and comparing two equal-length lists elementwise is list equality. -/
def compareStringSlices (expected actual : List String) : Bool :=
  if expected.length ≠ actual.length then false
  else if expected.length = 0 then true
  else List.insertionSort (· ≤ ·) expected == List.insertionSort (· ≤ ·) actual

/-- Lookup in a Go `map[string]string`: an absent key yields the zero value
`""`.  This is exactly the semantics of `actual[k]` in `compareMaps`. -/
def mapIndex (m : List (String × String)) (k : String) : String :=
  (m.lookup k).getD ""

/-- `compareMaps`: sizes equal and every expected key's value equals the
actual map's (zero-value-defaulting) lookup. -/
def compareMaps (expected actual : List (String × String)) : Bool :=
  if expected.length ≠ actual.length then false
  else expected.all (fun kv => mapIndex actual kv.1 == kv.2)

/-- `areEqual`: nil/nil equal, nil/non-nil unequal, slices via
`compareStringSlices`, maps via `compareMaps`, a failed type assertion is
unequal, anything else via `reflect.DeepEqual` (structural equality). -/
def areEqual (expected actual : Option AttrValue) : Bool :=
  match expected, actual with
  | none, none => true
  | none, some _ => false
  | some _, none => false
  | some (.strList exp), some act =>
    match act with
    | .strList a => compareStringSlices exp a
    | _ => false
  | some (.strMap exp), some act =>
    match act with
    | .strMap a => compareMaps exp a
    | _ => false
  | some x, some y => x == y

/-- The key list of the Go set-map built by inserting every element of `l`
(`expectedSet[v] = true` in `analyzeSliceDrift`): first occurrences, in
insertion order.  Iteration order over the map is applied on top via `σ`. -/
def setKeys (l : List String) : List String :=
  l.foldl (fun acc v => if acc.contains v then acc else acc ++ [v]) []

/-- Go `fmt.Sprintf("%v", xs)` for a `[]string`. -/
def fmtStrList (l : List String) : String :=
  "[" ++ String.intercalate " " l ++ "]"

/-- `analyzeSliceDrift`: set differences of the two slices decide the drift
kind; the difference lists are enumerated in map-iteration order `σ`. -/
def analyzeSliceDrift (σ : List String → List String)
    (expected actual : List String) : DriftType × String :=
  let missingInExpectation := (σ (setKeys expected)).filter (fun v => !actual.contains v)
  let extraFromInstance := (σ (setKeys actual)).filter (fun v => !expected.contains v)
  if missingInExpectation.length > 0 ∧ extraFromInstance.length = 0 then
    (DriftTypeMissingInstance, "missing values: " ++ fmtStrList missingInExpectation)
  else if extraFromInstance.length > 0 ∧ missingInExpectation.length = 0 then
    (DriftTypeExtraInInstance, "extra values: " ++ fmtStrList extraFromInstance)
  else if missingInExpectation.length > 0 ∧ extraFromInstance.length > 0 then
    (DriftTypeValueMismatch,
      "missing: " ++ fmtStrList missingInExpectation ++ ", extra: " ++ fmtStrList extraFromInstance)
  else (DriftTypeValueMismatch, "")

/-- `analyzeMapDrift`: missing keys, extra keys and keys with differing
values, enumerated in map-iteration order `σ` over each map's key list. -/
def analyzeMapDrift (σ : List String → List String)
    (expected actual : List (String × String)) : DriftType × String :=
  let expKeys := σ (expected.map Prod.fst)
  let actKeys := σ (actual.map Prod.fst)
  let missingKeys := expKeys.filter (fun k => (actual.lookup k).isNone)
  let differentValues := expKeys.filter (fun k =>
    match actual.lookup k with
    | none => false
    | some av => mapIndex expected k != av)
  let extraKeys := actKeys.filter (fun k => (expected.lookup k).isNone)
  if missingKeys.length > 0 ∧ extraKeys.length = 0 ∧ differentValues.length = 0 then
    (DriftTypeMissingInstance, "missing keys: " ++ fmtStrList missingKeys)
  else if extraKeys.length > 0 ∧ missingKeys.length = 0 ∧ differentValues.length = 0 then
    (DriftTypeExtraInInstance, "extra keys: " ++ fmtStrList extraKeys)
  else
    let d1 := if missingKeys.length > 0 then "missing keys: " ++ fmtStrList missingKeys else ""
    let d2 :=
      if extraKeys.length > 0 then
        (if d1 ≠ "" then d1 ++ ", " else d1) ++ "extra keys: " ++ fmtStrList extraKeys
      else d1
    let d3 :=
      if differentValues.length > 0 then
        (if d2 ≠ "" then d2 ++ ", " else d2) ++ "different values: " ++ fmtStrList differentValues
      else d2
    (DriftTypeValueMismatch, d3)

/-- `determineDriftType`. -/
def determineDriftType (σ : List String → List String)
    (expected actual : Option AttrValue) : DriftType × String :=
  match expected, actual with
  | none, some _ => (DriftTypeMissingInTerraform, "attribute present in instance but not in terraform")
  | some _, none => (DriftTypeMissingInstance, "attribute present in terraform but not in instance")
  | none, none => (DriftTypeValueMismatch, "")
  | some (.strList exp), some act =>
    match act with
    | .strList a => analyzeSliceDrift σ exp a
    | _ => (DriftTypeValueMismatch, "type mismatch")
  | some (.strMap exp), some act =>
    match act with
    | .strMap a => analyzeMapDrift σ exp a
    | _ => (DriftTypeValueMismatch, "type mismatch")
  | some _, some _ => (DriftTypeValueMismatch, "")

/-- `compareAttribute`: resolve both values, and when unequal append a drift
entry whose kind and detail come from `determineDriftType`. -/
def compareAttribute (σ : List String → List String) (attr : String)
    (expected actual : InstanceState) (report : DriftReport) : DriftReport :=
  let expectedVal := getAttributeValue attr expected
  let actualVal := getAttributeValue attr actual
  if areEqual expectedVal actualVal then report
  else
    let td := determineDriftType σ expectedVal actualVal
    if td.2 ≠ "" then
      report.AddDriftWithDetails attr expectedVal actualVal td.1 td.2
    else
      report.AddDrift attr expectedVal actualVal td.1

/-- `CompareAttributes`: fold the requested attributes over a fresh report. -/
def CompareAttributes (σ : List String → List String)
    (expected actual : InstanceState) (attrs : List String) : DriftReport :=
  attrs.foldl (fun report attr => compareAttribute σ attr expected actual report)
    { InstanceID := actual.InstanceID, HasDrift := false, Drifts := [], CheckedAttrs := attrs }

/-! ## State fetcher (`aws/aws.go`, retry-capable `EC2StateProvider`) -/

/-- Go `type EC2ErrorType string`. -/
abbrev EC2ErrorType := String

def ErrorTypeThrottling : EC2ErrorType := "THROTTLING"

def ErrorTypeAuthentication : EC2ErrorType := "AUTHENTICATION"

def ErrorTypeNotFound : EC2ErrorType := "NOT_FOUND"

def ErrorTypeNetwork : EC2ErrorType := "NETWORK"

def ErrorTypeUnknown : EC2ErrorType := "UNKNOWN"

/-- `aws.EC2Error`.  `Err` holds the message of the wrapped underlying
error. -/
structure EC2Error where
  InstanceID : String
  Err : String
  IsRetryable : Bool
  ErrorType : EC2ErrorType
deriving DecidableEq, Repr

/-- `(*EC2Error).Error()`. -/
def EC2Error.errorString (e : EC2Error) : String :=
  "EC2 error for instance " ++ e.InstanceID ++ " [" ++ e.ErrorType ++ "]: " ++ e.Err

/-- Retry-loop constants of `aws/aws.go` (durations in seconds). -/
def maxRetries : Nat := 5

def initialBackoff : Nat := 1

def maxBackoff : Nat := 32

/-- `a` starts the list `b` (helper for substring containment). -/
def startsWith : List Char → List Char → Bool
  | [], _ => true
  | _ :: _, [] => false
  | a :: as, b :: bs => a == b && startsWith as bs

/-- `needle` occurs inside `hay` (helper for `strings.Contains`). -/
def containsSub (hay needle : List Char) : Bool :=
  match hay with
  | [] => needle.isEmpty
  | _ :: rest => startsWith needle hay || containsSub rest needle

/-- Go `strings.Contains s sub`. -/
def strContains (s sub : String) : Bool :=
  containsSub s.data sub.data

/-- Go `strings.ToLower`, for the ASCII phrases the classifier matches. -/
def toLowerStr (s : String) : String :=
  ⟨s.data.map Char.toLower⟩

/-- `classifyError`: case-insensitive first-match substring classification of
a raw failure message into an error class and retryable flag. -/
def classifyError (instanceID : String) (errStr : String) : EC2Error :=
  let errStrLower := toLowerStr errStr
  if strContains errStrLower "throttling" || strContains errStrLower "requestlimitexceeded" ||
      strContains errStrLower "too many requests" then
    { InstanceID := instanceID, Err := errStr, IsRetryable := true,
      ErrorType := ErrorTypeThrottling }
  else if strContains errStrLower "authfailure" || strContains errStrLower "unauthorizedoperation" ||
      strContains errStrLower "access denied" ||
      strContains errStrLower "validate the provided access credentials" then
    { InstanceID := instanceID, Err := errStr, IsRetryable := false,
      ErrorType := ErrorTypeAuthentication }
  else if strContains errStrLower "does not exist" || strContains errStrLower "notfound" ||
      strContains errStrLower "invalidinstanceid" then
    { InstanceID := instanceID, Err := errStr, IsRetryable := false,
      ErrorType := ErrorTypeNotFound }
  else if strContains errStrLower "timeout" || strContains errStrLower "connection" ||
      strContains errStrLower "network" then
    { InstanceID := instanceID, Err := errStr, IsRetryable := true,
      ErrorType := ErrorTypeNetwork }
  else
    { InstanceID := instanceID, Err := errStr, IsRetryable := false,
      ErrorType := ErrorTypeUnknown }

instance {ε α : Type} [DecidableEq ε] [DecidableEq α] : DecidableEq (Except ε α) := fun x y =>
  match x, y with
  | .error a, .error b =>
    if h : a = b then isTrue (congrArg Except.error h)
    else isFalse (fun hc => h (Except.error.inj hc))
  | .error _, .ok _ => isFalse (fun hc => Except.noConfusion hc)
  | .ok _, .error _ => isFalse (fun hc => Except.noConfusion hc)
  | .ok a, .ok b =>
    if h : a = b then isTrue (congrArg Except.ok h)
    else isFalse (fun hc => h (Except.ok.inj hc))

/-- Observable outcome of one `GetInstanceState` call: the returned value or
error, the backoff durations waited (in seconds, in order), and the number of
fetch attempts actually performed. -/
structure FetchRun where
  result : Except EC2Error InstanceState
  waits : List Nat
  calls : Nat
deriving DecidableEq, Repr

/-- The retry loop of `GetInstanceState`.  `remaining` counts loop iterations
left (`maxRetries + 1 - attempt`); each iteration waits `backoff` when
`attempt > 0`, performs the fetch (`fetch attempt`: the outcome of attempt
number `attempt`, starting from 0), returns on success or a non-retryable
error, and otherwise doubles the backoff (capped at `maxBackoff`).  When the
iterations are exhausted it returns the terminal UNKNOWN error wrapping the
last classified cause.  The context is modelled as never cancelled and the
rate-limiter wait has no observable effect here. -/
def retryLoop (instanceID : String) (fetch : Nat → Except EC2Error InstanceState) :
    Nat → Nat → Nat → Option EC2Error → FetchRun
  | 0, _, _, lastErr =>
    { result := .error
        { InstanceID := instanceID,
          Err := "max retries exceeded: " ++ ((lastErr.map EC2Error.errorString).getD "<nil>"),
          IsRetryable := false, ErrorType := ErrorTypeUnknown },
      waits := [], calls := 0 }
  | remaining + 1, attempt, backoff, _lastErr =>
    let thisWaits := if attempt > 0 then [backoff] else []
    match fetch attempt with
    | .ok state => { result := .ok state, waits := thisWaits, calls := 1 }
    | .error e =>
      if e.IsRetryable then
        let rest := retryLoop instanceID fetch remaining (attempt + 1)
          (min (backoff * 2) maxBackoff) (some e)
        { result := rest.result, waits := thisWaits ++ rest.waits, calls := rest.calls + 1 }
      else
        { result := .error e, waits := thisWaits, calls := 1 }

/-- `GetInstanceState`: up to `maxRetries + 1` attempts starting with backoff
`initialBackoff`. -/
def GetInstanceState (instanceID : String)
    (fetch : Nat → Except EC2Error InstanceState) : FetchRun :=
  retryLoop instanceID fetch (maxRetries + 1) 0 initialBackoff none

/-! ## Drift orchestrator (`service/service.go`) -/

/-- A per-instance error surfaced to the orchestrator in concurrent mode:
either the synthetic "not in terraform state" error or the error returned by
the fetcher (an `*aws.EC2Error`). -/
inductive ServiceError where
  | notInState (id : String)
  | fetch (e : EC2Error)
deriving DecidableEq, Repr

/-- The Go error message of a `ServiceError`. -/
def ServiceError.message : ServiceError → String
  | .notInState id => "instance " ++ id ++ " not in terraform state"
  | .fetch e => e.errorString

/-- `aws.IsAuthError`: `errors.As` finds an `*EC2Error` and checks its class;
a plain error is not an auth error. -/
def IsAuthError : ServiceError → Bool
  | .notInState _ => false
  | .fetch e => e.ErrorType == ErrorTypeAuthentication

/-- A remote call recorded by the orchestrator embedding: one
`GetInstanceState` call or one `GetInstanceStatesBatch` call. -/
inductive FetchCall where
  | one (id : String)
  | batch (ids : List String)
deriving DecidableEq, Repr

/-- Result of one `DetectDrift`-mode invocation: the reports, the aggregate
error (`none` for a nil error), and the remote calls made. -/
structure DetectResult where
  reports : List DriftReport
  err : Option String
  calls : List FetchCall
deriving DecidableEq, Repr

/-- The body of one concurrent-mode worker goroutine for instance `id`:
fail ids absent from the baseline without fetching, otherwise fetch and
compare. -/
def workerResult (σ : List String → List String)
    (expectedStates : List (String × InstanceState))
    (fetchOne : String → Except EC2Error InstanceState)
    (attrs : List String) (id : String) : Except ServiceError DriftReport :=
  match expectedStates.lookup id with
  | none => .error (.notInState id)
  | some expected =>
    match fetchOne id with
    | .error e => .error (.fetch e)
    | .ok actual => .ok (CompareAttributes σ expected actual attrs)

/-- The result-channel drain loop of `detectDriftConcurrent`, over the
results in arrival order: partition into reports and error messages and count
authentication-class failures. -/
def collectConcurrent : List (Except ServiceError DriftReport) →
    List DriftReport × List String × Nat
  | [] => ([], [], 0)
  | .ok r :: rest =>
    let acc := collectConcurrent rest
    (r :: acc.1, acc.2.1, acc.2.2)
  | .error e :: rest =>
    let acc := collectConcurrent rest
    (acc.1, e.message :: acc.2.1, acc.2.2 + (if IsAuthError e then 1 else 0))

/-- The aggregate error message of concurrent mode: a single failure's
message verbatim, otherwise a count, with the authentication-failure count
appended when any failure was authentication-class. -/
def concurrentSummary (errorMessages : List String) (authErrors : Nat) : String :=
  if errorMessages.length = 1 then errorMessages.headD ""
  else if authErrors > 0 then
    toString errorMessages.length ++ " instance(s) failed (" ++ toString authErrors
      ++ " authentication errors)"
  else toString errorMessages.length ++ " instance(s) failed"

/-- `detectDriftConcurrent`: one worker per id; results are drained from the
channel in `arrival` order (a permutation of the requested ids).  Each worker
whose id is in the baseline makes exactly one `GetInstanceState` call. -/
def detectDriftConcurrent (σ : List String → List String)
    (expectedStates : List (String × InstanceState))
    (fetchOne : String → Except EC2Error InstanceState)
    (attrs : List String) (arrival : List String) : DetectResult :=
  let acc := collectConcurrent (arrival.map (workerResult σ expectedStates fetchOne attrs))
  { reports := acc.1
    err := if acc.2.1.length > 0 then some (concurrentSummary acc.2.1 acc.2.2) else none
    calls := arrival.filterMap (fun id =>
      if (expectedStates.lookup id).isSome then some (FetchCall.one id) else none) }

/-- The per-id loop of `detectDriftBatch` over the requested ids in order:
skip ids missing from the baseline or from the batch-fetch result with an
error message, otherwise compare. -/
def batchLoop (σ : List String → List String)
    (expectedStates actualStates : List (String × InstanceState))
    (attrs : List String) : List String → List DriftReport × List String
  | [] => ([], [])
  | id :: rest =>
    let acc := batchLoop σ expectedStates actualStates attrs rest
    match expectedStates.lookup id with
    | none => (acc.1, ("instance " ++ id ++ " not in terraform state") :: acc.2)
    | some expected =>
      match actualStates.lookup id with
      | none => (acc.1, ("instance " ++ id ++ " not found in AWS") :: acc.2)
      | some actual => (CompareAttributes σ expected actual attrs :: acc.1, acc.2)

/-- `detectDriftBatch`: one `GetInstanceStatesBatch` call for the whole id
set (`batchFetch` returns the per-id snapshots that the call produced; a
batch-level error is only logged, so it is not a parameter), then the per-id
loop; any failed id yields a count-style aggregate error. -/
def detectDriftBatch (σ : List String → List String)
    (expectedStates : List (String × InstanceState))
    (batchFetch : List String → List (String × InstanceState))
    (attrs : List String) (instanceIDs : List String) : DetectResult :=
  let actualStates := batchFetch instanceIDs
  let acc := batchLoop σ expectedStates actualStates attrs instanceIDs
  { reports := acc.1
    err := if acc.2.length > 0 then some (toString acc.2.length ++ " instance(s) failed") else none
    calls := [FetchCall.batch instanceIDs] }

/-- `DetectDrift` after baseline parsing and id defaulting: batch mode when
the resolved id count exceeds 10, else concurrent mode.  `arrival` is the
(nondeterministic) result-arrival order of concurrent mode, constrained in
theorems to a permutation of `instanceIDs`. -/
def DetectDrift (σ : List String → List String)
    (expectedStates : List (String × InstanceState))
    (fetchOne : String → Except EC2Error InstanceState)
    (batchFetch : List String → List (String × InstanceState))
    (attrs : List String) (instanceIDs arrival : List String) : DetectResult :=
  if instanceIDs.length > 10 then
    detectDriftBatch σ expectedStates batchFetch attrs instanceIDs
  else
    detectDriftConcurrent σ expectedStates fetchOne attrs arrival

/-! ## Statement-side helpers -/

/-- Blank out every drift entry's detail string (specification helper: two
reports are "identical up to details" when their erasures coincide). -/
def eraseDetails (r : DriftReport) : DriftReport :=
  { r with Drifts := r.Drifts.map (fun d => { d with Details := "" }) }

/-- The report a concurrent-mode worker produced, if it succeeded. -/
def outcomeReport? : Except ServiceError DriftReport → Option DriftReport
  | .ok r => some r
  | .error _ => none

/-- The error message a concurrent-mode worker produced, if it failed. -/
def outcomeMessage? : Except ServiceError DriftReport → Option String
  | .ok _ => none
  | .error e => some e.message

/-- The report batch mode produces for one id, if the id resolves on both
sides. -/
def batchOutcome? (σ : List String → List String)
    (expectedStates actualStates : List (String × InstanceState))
    (attrs : List String) (id : String) : Option DriftReport :=
  match expectedStates.lookup id with
  | none => none
  | some expected =>
    match actualStates.lookup id with
    | none => none
    | some actual => some (CompareAttributes σ expected actual attrs)

/-- The error message batch mode records for one id, if any. -/
def batchMessage? (expectedStates actualStates : List (String × InstanceState))
    (id : String) : Option String :=
  match expectedStates.lookup id with
  | none => some ("instance " ++ id ++ " not in terraform state")
  | some _ =>
    match actualStates.lookup id with
    | none => some ("instance " ++ id ++ " not found in AWS")
    | some _ => none

/-- The per-id error messages of one concurrent-mode run, in arrival order. -/
def concurrentFailures (σ : List String → List String)
    (expectedStates : List (String × InstanceState))
    (fetchOne : String → Except EC2Error InstanceState)
    (attrs : List String) (arrival : List String) : List String :=
  (collectConcurrent (arrival.map (workerResult σ expectedStates fetchOne attrs))).2.1

/-- The number of authentication-class failures of one concurrent-mode run. -/
def concurrentAuthCount (σ : List String → List String)
    (expectedStates : List (String × InstanceState))
    (fetchOne : String → Except EC2Error InstanceState)
    (attrs : List String) (arrival : List String) : Nat :=
  (collectConcurrent (arrival.map (workerResult σ expectedStates fetchOne attrs))).2.2

/-- The phrases whose presence (in the lowercased message) classifies a
failure as THROTTLING. -/
def hasThrottlePhrase (l : String) : Bool :=
  strContains l "throttling" || strContains l "requestlimitexceeded" ||
    strContains l "too many requests"

/-- The AUTHENTICATION phrases. -/
def hasAuthPhrase (l : String) : Bool :=
  strContains l "authfailure" || strContains l "unauthorizedoperation" ||
    strContains l "access denied" || strContains l "validate the provided access credentials"

/-- The NOT_FOUND phrases. -/
def hasNotFoundPhrase (l : String) : Bool :=
  strContains l "does not exist" || strContains l "notfound" ||
    strContains l "invalidinstanceid"

/-- The NETWORK phrases. -/
def hasNetworkPhrase (l : String) : Bool :=
  strContains l "timeout" || strContains l "connection" || strContains l "network"

/-! ## Concrete instances used by witnesses and counterexamples -/

/-- A map-iteration order: insertion order. -/
def idIter : List String → List String := fun l => l

/-- A map-iteration order: reversed insertion order. -/
def revIter : List String → List String := fun l => l.reverse

def sampleStateA : InstanceState :=
  { InstanceID := "i-a", InstanceType := "t3.micro", AvailabilityZone := "us-east-1a",
    SecurityGroups := [], Tags := [], SubnetID := "", ImageID := "", KeyName := "",
    Monitoring := false }

def sampleStateB : InstanceState :=
  { InstanceID := "i-b", InstanceType := "t3.large", AvailabilityZone := "us-east-1a",
    SecurityGroups := [], Tags := [], SubnetID := "", ImageID := "", KeyName := "",
    Monitoring := false }

/-- A throttling-classified (retryable) fetch error. -/
def thrErr : EC2Error := classifyError "i-1" "Throttling: Rate exceeded"

/-- An authentication-classified (non-retryable) fetch error for `i-b`. -/
def authErrB : EC2Error := classifyError "i-b" "AuthFailure: credentials invalid"

/-- A network-classified fetch error for an id. -/
def netErr (id : String) : EC2Error := classifyError id "connection timeout"

/-- Fetch outcomes: throttled on attempts 0-2, success on attempt 3. -/
def fetchThrottle3 (k : Nat) : Except EC2Error InstanceState :=
  if k < 3 then .error thrErr else .ok sampleStateA

/-- Fetch outcomes: throttled on every attempt. -/
def fetchAlwaysThrottle (_ : Nat) : Except EC2Error InstanceState :=
  .error thrErr

/-- Snapshots whose security groups differ with a two-element set
difference. -/
def stC2e : InstanceState := { sampleStateA with SecurityGroups := ["a", "b"] }

def stC2a : InstanceState := { sampleStateA with SecurityGroups := ["c"] }

/-- Snapshots with the distinct equal-size tag maps `{"a": ""}` and
`{"b": "x"}`. -/
def stC9e : InstanceState := { sampleStateA with Tags := [("a", "")] }

def stC9a : InstanceState := { sampleStateA with Tags := [("b", "x")] }

/-- Baseline holding `i-a` and `i-b`. -/
def expStAB : List (String × InstanceState) := [("i-a", sampleStateA), ("i-b", sampleStateB)]

/-- Per-id fetcher: `i-a` succeeds, `i-b` fails non-retryably. -/
def fetchAB (id : String) : Except EC2Error InstanceState :=
  if id = "i-a" then .ok sampleStateA else .error authErrB

/-- Per-id fetcher: every id fails with a network (non-auth) error. -/
def fetchAllNet (id : String) : Except EC2Error InstanceState :=
  .error (netErr id)

def ids10 : List String :=
  ["i-0", "i-1", "i-2", "i-3", "i-4", "i-5", "i-6", "i-7", "i-8", "i-9"]

def ids11 : List String := ids10 ++ ["i-10"]

/-- Baseline holding all eleven ids. -/
def baseline11 : List (String × InstanceState) :=
  ids11.map (fun id => (id, { sampleStateA with InstanceID := id }))

/-- A per-id fetcher that always succeeds. -/
def fetchOK (_ : String) : Except EC2Error InstanceState := .ok sampleStateA

/-- A batch fetcher returning no snapshots. -/
def batchNone (_ : List String) : List (String × InstanceState) := []

/-- A per-id fetcher: every id fails with an authentication error. -/
def fetchAllAuth (_ : String) : Except EC2Error InstanceState := .error authErrB

/-! ## Helper lemmas -/

theorem mem_foldl_insert (x : String) :
    ∀ (l acc : List String),
      x ∈ l.foldl (fun acc v => if acc.contains v then acc else acc ++ [v]) acc
        ↔ x ∈ acc ∨ x ∈ l
  | [], acc => by simp
  | v :: rest, acc => by
    rw [List.foldl_cons]
    by_cases h : acc.contains v
    · rw [if_pos h, mem_foldl_insert x rest acc]
      have hv : v ∈ acc := by simpa using h
      simp only [List.mem_cons]
      constructor
      · rintro (hx | hx)
        · exact Or.inl hx
        · exact Or.inr (Or.inr hx)
      · rintro (hx | rfl | hx)
        · exact Or.inl hx
        · exact Or.inl hv
        · exact Or.inr hx
    · rw [if_neg h, mem_foldl_insert x rest (acc ++ [v])]
      simp only [List.mem_append, List.mem_singleton, List.mem_cons]
      tauto

theorem mem_setKeys (l : List String) (x : String) : x ∈ setKeys l ↔ x ∈ l := by
  unfold setKeys
  rw [mem_foldl_insert]
  simp

theorem mem_iterKeys (σ : List String → List String) (hσ : ∀ l, (σ l).Perm l)
    (l : List String) (x : String) : x ∈ σ (setKeys l) ↔ x ∈ l := by
  rw [(hσ (setKeys l)).mem_iff, mem_setKeys]

/-! ## Claim C4 -/

/-- C4: the retry schedule of `GetInstanceState` diverges from the claim.
The loop performs at most 6 attempts and a throttled-then-successful fetch
returns the snapshot with no error, as claimed; but because the backoff
variable is doubled after every failed attempt and the first retry only then
waits, the waits actually performed are 2s, 4s, 8s (and on full exhaustion
2s, 4s, 8s, 16s, 32s) — never the claimed 1s, 2s, 4s starting at the 1s
`initialBackoff`, which is doubled away before any wait happens. -/
theorem getInstanceState_backoff_schedule :
    (GetInstanceState "i-1" fetchThrottle3).result = .ok sampleStateA
  ∧ (GetInstanceState "i-1" fetchThrottle3).calls = 4
  ∧ (GetInstanceState "i-1" fetchThrottle3).waits = [2, 4, 8]
  ∧ (GetInstanceState "i-1" fetchThrottle3).waits ≠ [1, 2, 4]
  ∧ (GetInstanceState "i-1" fetchAlwaysThrottle).calls = 6
  ∧ (GetInstanceState "i-1" fetchAlwaysThrottle).waits = [2, 4, 8, 16, 32]
  ∧ initialBackoff = 1 := by
  decide

/-! ## Claim C9 -/

/-- C9: `compareMaps` only checks that sizes match and that each expected
key's value equals the zero-value-defaulting lookup in the actual map, so the
distinct equal-size tag maps `{"a": ""}` and `{"b": "x"}` compare as equal
and `Compare` emits no drift entry for `Tags` on such a pair. -/
theorem compareMaps_distinct_maps_no_drift :
    compareMaps [("a", "")] [("b", "x")] = true
  ∧ ([("a", "")] : List (String × String)) ≠ [("b", "x")]
  ∧ stC9e.Tags ≠ stC9a.Tags
  ∧ (CompareAttributes idIter stC9e stC9a ["Tags"]).HasDrift = false
  ∧ (CompareAttributes idIter stC9e stC9a ["Tags"]).Drifts = [] := by
  decide

/-! ## Claim C2 -/

/-- C2 counterexample: `CompareAttributes` is not bit-for-bit deterministic
across runs.  The difference lists inside detail strings are enumerated in Go
map-iteration order, which is unspecified and randomized per range; two
admissible iteration orders (insertion order and its reverse — the
permutation constraint is exhibited for the key list involved) produce
different `Details` strings, hence different reports, for the same unchanged
pair of snapshots. -/
theorem compareAttributes_not_bitwise_idempotent :
    (revIter ["a", "b"]).Perm ["a", "b"]
  ∧ CompareAttributes idIter stC2e stC2a ["SecurityGroups"]
      ≠ CompareAttributes revIter stC2e stC2a ["SecurityGroups"] := by
  decide

theorem analyzeSliceDrift_fst_invariant (σ₁ σ₂ : List String → List String)
    (h₁ : ∀ l, (σ₁ l).Perm l) (h₂ : ∀ l, (σ₂ l).Perm l) (e a : List String) :
    (analyzeSliceDrift σ₁ e a).1 = (analyzeSliceDrift σ₂ e a).1 := by
  have hm : ((σ₁ (setKeys e)).filter (fun v => !a.contains v)).length
      = ((σ₂ (setKeys e)).filter (fun v => !a.contains v)).length :=
    (((h₁ (setKeys e)).trans (h₂ (setKeys e)).symm).filter _).length_eq
  have hx : ((σ₁ (setKeys a)).filter (fun v => !e.contains v)).length
      = ((σ₂ (setKeys a)).filter (fun v => !e.contains v)).length :=
    (((h₁ (setKeys a)).trans (h₂ (setKeys a)).symm).filter _).length_eq
  unfold analyzeSliceDrift
  simp only [hm, hx]
  split_ifs <;> rfl

set_option maxHeartbeats 2000000 in
theorem analyzeMapDrift_fst_invariant (σ₁ σ₂ : List String → List String)
    (h₁ : ∀ l, (σ₁ l).Perm l) (h₂ : ∀ l, (σ₂ l).Perm l)
    (e a : List (String × String)) :
    (analyzeMapDrift σ₁ e a).1 = (analyzeMapDrift σ₂ e a).1 := by
  have perm₁ : ∀ l, (σ₁ l).Perm (σ₂ l) := fun l => (h₁ l).trans (h₂ l).symm
  have key : ∀ (l₁ l₂ : List String) (p : String → Bool),
      l₁.Perm l₂ → (l₁.filter p).length = (l₂.filter p).length :=
    fun _ _ p h => (h.filter p).length_eq
  have hm := key _ _ (fun k => (a.lookup k).isNone) (perm₁ (e.map Prod.fst))
  have hd := key _ _
    (fun k =>
      match a.lookup k with
      | none => false
      | some av => mapIndex e k != av)
    (perm₁ (e.map Prod.fst))
  have hx := key _ _ (fun k => (e.lookup k).isNone) (perm₁ (a.map Prod.fst))
  unfold analyzeMapDrift
  simp only [hm, hd, hx]
  split_ifs <;> rfl

theorem determineDriftType_fst_invariant (σ₁ σ₂ : List String → List String)
    (h₁ : ∀ l, (σ₁ l).Perm l) (h₂ : ∀ l, (σ₂ l).Perm l) (x y : Option AttrValue) :
    (determineDriftType σ₁ x y).1 = (determineDriftType σ₂ x y).1 := by
  cases x with
  | none => cases y <;> rfl
  | some vx =>
    cases y with
    | none => cases vx <;> rfl
    | some vy =>
      cases vx <;> cases vy <;>
        first
          | rfl
          | exact analyzeSliceDrift_fst_invariant σ₁ σ₂ h₁ h₂ _ _
          | exact analyzeMapDrift_fst_invariant σ₁ σ₂ h₁ h₂ _ _

theorem eraseDetails_AddDrift (r : DriftReport) (attr : String)
    (ev av : Option AttrValue) (t : DriftType) :
    eraseDetails (r.AddDrift attr ev av t)
      = { eraseDetails r with
          Drifts := (eraseDetails r).Drifts
            ++ [{ AttributeName := attr, ExpectedValue := ev, ActualValue := av,
                  DriftType := t, Details := "" }]
          HasDrift := true } := by
  simp [eraseDetails, DriftReport.AddDrift]

theorem eraseDetails_AddDriftWithDetails (r : DriftReport) (attr : String)
    (ev av : Option AttrValue) (t : DriftType) (d : String) :
    eraseDetails (r.AddDriftWithDetails attr ev av t d)
      = { eraseDetails r with
          Drifts := (eraseDetails r).Drifts
            ++ [{ AttributeName := attr, ExpectedValue := ev, ActualValue := av,
                  DriftType := t, Details := "" }]
          HasDrift := true } := by
  simp [eraseDetails, DriftReport.AddDriftWithDetails]

theorem eraseDetails_compareAttribute (σ₁ σ₂ : List String → List String)
    (h₁ : ∀ l, (σ₁ l).Perm l) (h₂ : ∀ l, (σ₂ l).Perm l) (attr : String)
    (expected actual : InstanceState) (r₁ r₂ : DriftReport)
    (hr : eraseDetails r₁ = eraseDetails r₂) :
    eraseDetails (compareAttribute σ₁ attr expected actual r₁)
      = eraseDetails (compareAttribute σ₂ attr expected actual r₂) := by
  have ht := determineDriftType_fst_invariant σ₁ σ₂ h₁ h₂
    (getAttributeValue attr expected) (getAttributeValue attr actual)
  unfold compareAttribute
  by_cases heq : areEqual (getAttributeValue attr expected) (getAttributeValue attr actual)
  · simpa [heq] using hr
  · simp only [heq, Bool.false_eq_true, if_false]
    split_ifs <;>
      simp only [eraseDetails_AddDrift, eraseDetails_AddDriftWithDetails, hr, ht]

theorem eraseDetails_compare_foldl (σ₁ σ₂ : List String → List String)
    (h₁ : ∀ l, (σ₁ l).Perm l) (h₂ : ∀ l, (σ₂ l).Perm l)
    (expected actual : InstanceState) :
    ∀ (attrs : List String) (r₁ r₂ : DriftReport), eraseDetails r₁ = eraseDetails r₂ →
      eraseDetails (attrs.foldl (fun report attr => compareAttribute σ₁ attr expected actual report) r₁)
        = eraseDetails (attrs.foldl (fun report attr => compareAttribute σ₂ attr expected actual report) r₂)
  | [], _, _, hr => hr
  | attr :: rest, r₁, r₂, hr =>
    eraseDetails_compare_foldl σ₁ σ₂ h₁ h₂ expected actual rest _ _
      (eraseDetails_compareAttribute σ₁ σ₂ h₁ h₂ attr expected actual r₁ r₂ hr)

/-- C2 amended: two runs of `CompareAttributes` on the same unchanged pair
with the same attribute list produce reports that agree on instance id,
has-drift flag, checked attributes, and the drift entries' names, values and
kinds in the same order; only the `Details` strings may list set-difference
members in a different order, because they are produced by Go map iteration.
With the same iteration order the reports are bit-for-bit identical. -/
theorem compareAttributes_deterministic_up_to_details
    (σ₁ σ₂ : List String → List String)
    (h₁ : ∀ l, (σ₁ l).Perm l) (h₂ : ∀ l, (σ₂ l).Perm l)
    (expected actual : InstanceState) (attrs : List String) :
    eraseDetails (CompareAttributes σ₁ expected actual attrs)
      = eraseDetails (CompareAttributes σ₂ expected actual attrs) := by
  unfold CompareAttributes
  exact eraseDetails_compare_foldl σ₁ σ₂ h₁ h₂ expected actual attrs _ _ rfl

/-- C2 amended, witness: the two admissible iteration orders of the
counterexample still yield detail-erased-identical reports. -/
theorem compareAttributes_deterministic_up_to_details_witness :
    eraseDetails (CompareAttributes idIter stC2e stC2a ["SecurityGroups"])
      = eraseDetails (CompareAttributes revIter stC2e stC2a ["SecurityGroups"]) :=
  compareAttributes_deterministic_up_to_details idIter revIter
    (fun l => List.Perm.refl l) (fun l => l.reverse_perm) stC2e stC2a ["SecurityGroups"]

/-! ## Claim C8 -/

theorem getAttributeValue_sg (st : InstanceState) :
    getAttributeValue "SecurityGroups" st = some (.strList st.SecurityGroups) := rfl

theorem areEqual_strLists (e a : List String) :
    areEqual (some (.strList e)) (some (.strList a)) = compareStringSlices e a := rfl

theorem compareStringSlices_iff_perm (e a : List String) :
    compareStringSlices e a = true ↔ e.Perm a := by
  unfold compareStringSlices
  by_cases hlen : e.length ≠ a.length
  · rw [if_pos hlen]
    constructor
    · intro h
      exact absurd h (by simp)
    · intro hperm
      exact absurd hperm.length_eq hlen
  · rw [if_neg hlen]
    push_neg at hlen
    by_cases h0 : e.length = 0
    · rw [if_pos h0]
      have he : e = [] := List.length_eq_zero.mp h0
      have ha : a = [] := List.length_eq_zero.mp (hlen ▸ h0)
      subst he
      subst ha
      simp
    · rw [if_neg h0, beq_iff_eq]
      constructor
      · intro hsort
        exact (List.perm_insertionSort _ e).symm.trans (hsort ▸ List.perm_insertionSort _ a)
      · intro hperm
        exact List.eq_of_perm_of_sorted
          ((List.perm_insertionSort _ e).trans (hperm.trans (List.perm_insertionSort _ a).symm))
          (List.sorted_insertionSort _ _) (List.sorted_insertionSort _ _)

theorem compareAttributes_sg_hasDrift (σ : List String → List String)
    (expected actual : InstanceState) :
    (CompareAttributes σ expected actual ["SecurityGroups"]).HasDrift
      = !compareStringSlices expected.SecurityGroups actual.SecurityGroups := by
  simp only [CompareAttributes, List.foldl_cons, List.foldl_nil, compareAttribute,
    getAttributeValue_sg, areEqual_strLists]
  by_cases h : compareStringSlices expected.SecurityGroups actual.SecurityGroups = true
  · simp [h]
  · have h' : compareStringSlices expected.SecurityGroups actual.SecurityGroups = false := by
      simpa using h
    rw [h']
    simp only [Bool.false_eq_true, if_false, Bool.not_false]
    split_ifs <;> simp [DriftReport.AddDrift, DriftReport.AddDriftWithDetails]

/-- C8: comparing the `SecurityGroups` attribute of two snapshots reports no
drift exactly when the two lists are permutations of the same multiset —
order-independent (any reordering is no-drift) and duplicate-count-sensitive
(equal-length lists whose multisets differ, including only in duplicate
counts, report drift). -/
theorem securityGroups_order_independent (σ : List String → List String)
    (expected actual : InstanceState) :
    (CompareAttributes σ expected actual ["SecurityGroups"]).HasDrift = false
      ↔ expected.SecurityGroups.Perm actual.SecurityGroups := by
  rw [compareAttributes_sg_hasDrift, ← compareStringSlices_iff_perm]
  simp

/-! ## Claim C5 -/

theorem classifyError_phrase_form (instanceID errStr : String) :
    classifyError instanceID errStr =
      (if hasThrottlePhrase (toLowerStr errStr) then
        { InstanceID := instanceID, Err := errStr, IsRetryable := true,
          ErrorType := ErrorTypeThrottling }
      else if hasAuthPhrase (toLowerStr errStr) then
        { InstanceID := instanceID, Err := errStr, IsRetryable := false,
          ErrorType := ErrorTypeAuthentication }
      else if hasNotFoundPhrase (toLowerStr errStr) then
        { InstanceID := instanceID, Err := errStr, IsRetryable := false,
          ErrorType := ErrorTypeNotFound }
      else if hasNetworkPhrase (toLowerStr errStr) then
        { InstanceID := instanceID, Err := errStr, IsRetryable := true,
          ErrorType := ErrorTypeNetwork }
      else
        { InstanceID := instanceID, Err := errStr, IsRetryable := false,
          ErrorType := ErrorTypeUnknown }) := rfl

/-- C5: `classifyError` assigns every raw failure message exactly one class
by case-insensitive substring matching, in the switch order of the source:
throttling/rate-limit phrases give THROTTLING (retryable); otherwise
authentication phrases give AUTHENTICATION (non-retryable); otherwise
not-found/invalid-id phrases give NOT_FOUND (non-retryable); otherwise
timeout/connection/network phrases give NETWORK (retryable); anything else
gives UNKNOWN (non-retryable).  The error is retryable exactly when its class
is THROTTLING or NETWORK, and it carries the instance id and cause. -/
theorem classifyError_classification (instanceID errStr : String) :
    ((classifyError instanceID errStr).InstanceID = instanceID
      ∧ (classifyError instanceID errStr).Err = errStr)
  ∧ ((classifyError instanceID errStr).ErrorType = ErrorTypeThrottling
      ↔ hasThrottlePhrase (toLowerStr errStr) = true)
  ∧ ((classifyError instanceID errStr).ErrorType = ErrorTypeAuthentication
      ↔ hasThrottlePhrase (toLowerStr errStr) = false
        ∧ hasAuthPhrase (toLowerStr errStr) = true)
  ∧ ((classifyError instanceID errStr).ErrorType = ErrorTypeNotFound
      ↔ hasThrottlePhrase (toLowerStr errStr) = false
        ∧ hasAuthPhrase (toLowerStr errStr) = false
        ∧ hasNotFoundPhrase (toLowerStr errStr) = true)
  ∧ ((classifyError instanceID errStr).ErrorType = ErrorTypeNetwork
      ↔ hasThrottlePhrase (toLowerStr errStr) = false
        ∧ hasAuthPhrase (toLowerStr errStr) = false
        ∧ hasNotFoundPhrase (toLowerStr errStr) = false
        ∧ hasNetworkPhrase (toLowerStr errStr) = true)
  ∧ ((classifyError instanceID errStr).ErrorType = ErrorTypeUnknown
      ↔ hasThrottlePhrase (toLowerStr errStr) = false
        ∧ hasAuthPhrase (toLowerStr errStr) = false
        ∧ hasNotFoundPhrase (toLowerStr errStr) = false
        ∧ hasNetworkPhrase (toLowerStr errStr) = false)
  ∧ ((classifyError instanceID errStr).IsRetryable = true
      ↔ ((classifyError instanceID errStr).ErrorType = ErrorTypeThrottling
          ∨ (classifyError instanceID errStr).ErrorType = ErrorTypeNetwork)) := by
  rw [classifyError_phrase_form]
  cases hT : hasThrottlePhrase (toLowerStr errStr) <;>
    cases hA : hasAuthPhrase (toLowerStr errStr) <;>
    cases hN : hasNotFoundPhrase (toLowerStr errStr) <;>
    cases hW : hasNetworkPhrase (toLowerStr errStr) <;>
    simp [ErrorTypeThrottling, ErrorTypeAuthentication, ErrorTypeNotFound,
      ErrorTypeNetwork, ErrorTypeUnknown]

/-! ## Claim C7 -/

theorem mem_missingList (σ : List String → List String) (hσ : ∀ l, (σ l).Perm l)
    (expected actual : List String) (t : String) :
    t ∈ (σ (setKeys expected)).filter (fun v => !actual.contains v)
      ↔ (t ∈ expected ∧ t ∉ actual) := by
  rw [List.mem_filter, mem_iterKeys σ hσ]
  simp

theorem missingList_ne_nil (σ : List String → List String) (hσ : ∀ l, (σ l).Perm l)
    (expected actual : List String)
    (h : expected.filter (fun v => !actual.contains v) ≠ []) :
    (σ (setKeys expected)).filter (fun v => !actual.contains v) ≠ [] := by
  obtain ⟨t, ht⟩ := List.exists_mem_of_ne_nil _ h
  have hmem := List.mem_filter.mp ht
  exact List.ne_nil_of_mem
    ((mem_missingList σ hσ expected actual t).mpr ⟨hmem.1, by simpa using hmem.2⟩)

theorem missingList_eq_nil (σ : List String → List String) (hσ : ∀ l, (σ l).Perm l)
    (expected actual : List String)
    (h : expected.filter (fun v => !actual.contains v) = []) :
    (σ (setKeys expected)).filter (fun v => !actual.contains v) = [] := by
  rw [List.filter_eq_nil_iff]
  rw [List.filter_eq_nil_iff] at h
  intro t ht
  exact h t ((mem_setKeys expected t).mp ((hσ (setKeys expected)).mem_iff.mp ht))

/-- C7: for unequal list-typed attribute values the drift kind is decided by
set difference: only expected−actual non-empty gives the missing-from-the-
instance kind (the spec's MISSING_IN_ACTUAL, the source's
`DriftTypeMissingInstance` = "MISSING_IN_INSTANCE") with the missing values
listed in the detail; only actual−expected non-empty gives the extra kind
(spec EXTRA_IN_ACTUAL, source "EXTRA_IN_INSTANCE"); both non-empty gives
VALUE_MISMATCH listing both differences. -/
theorem analyzeSliceDrift_set_difference (σ : List String → List String)
    (hσ : ∀ l, (σ l).Perm l) (expected actual : List String) :
    (expected.filter (fun v => !actual.contains v) ≠ [] →
     actual.filter (fun v => !expected.contains v) = [] →
       (analyzeSliceDrift σ expected actual).1 = DriftTypeMissingInstance
       ∧ ∃ ms, ms ≠ []
           ∧ (∀ x, x ∈ ms ↔ (x ∈ expected ∧ x ∉ actual))
           ∧ (analyzeSliceDrift σ expected actual).2 = "missing values: " ++ fmtStrList ms)
  ∧ (expected.filter (fun v => !actual.contains v) = [] →
     actual.filter (fun v => !expected.contains v) ≠ [] →
       (analyzeSliceDrift σ expected actual).1 = DriftTypeExtraInInstance
       ∧ ∃ es, es ≠ []
           ∧ (∀ x, x ∈ es ↔ (x ∈ actual ∧ x ∉ expected))
           ∧ (analyzeSliceDrift σ expected actual).2 = "extra values: " ++ fmtStrList es)
  ∧ (expected.filter (fun v => !actual.contains v) ≠ [] →
     actual.filter (fun v => !expected.contains v) ≠ [] →
       (analyzeSliceDrift σ expected actual).1 = DriftTypeValueMismatch
       ∧ ∃ ms es, ms ≠ [] ∧ es ≠ []
           ∧ (∀ x, x ∈ ms ↔ (x ∈ expected ∧ x ∉ actual))
           ∧ (∀ x, x ∈ es ↔ (x ∈ actual ∧ x ∉ expected))
           ∧ (analyzeSliceDrift σ expected actual).2
               = "missing: " ++ fmtStrList ms ++ ", extra: " ++ fmtStrList es) := by
  refine ⟨?_, ?_, ?_⟩
  · intro h1 h2
    have hm := missingList_ne_nil σ hσ expected actual h1
    have hx := missingList_eq_nil σ hσ actual expected h2
    unfold analyzeSliceDrift
    rw [if_pos ⟨List.length_pos.mpr hm, List.length_eq_zero.mpr hx⟩]
    exact ⟨rfl, _, hm, mem_missingList σ hσ expected actual, rfl⟩
  · intro h1 h2
    have hm := missingList_eq_nil σ hσ expected actual h1
    have hx := missingList_ne_nil σ hσ actual expected h2
    unfold analyzeSliceDrift
    rw [if_neg (fun hc => absurd hc.1 (by rw [hm]; simp)),
      if_pos ⟨List.length_pos.mpr hx, List.length_eq_zero.mpr hm⟩]
    exact ⟨rfl, _, hx, mem_missingList σ hσ actual expected, rfl⟩
  · intro h1 h2
    have hm := missingList_ne_nil σ hσ expected actual h1
    have hx := missingList_ne_nil σ hσ actual expected h2
    have hmlen := List.length_pos.mpr hm
    have hxlen := List.length_pos.mpr hx
    unfold analyzeSliceDrift
    rw [if_neg (fun hc => hx (List.length_eq_zero.mp hc.2)),
      if_neg (fun hc => hm (List.length_eq_zero.mp hc.2)),
      if_pos ⟨hmlen, hxlen⟩]
    exact ⟨rfl, _, _, hm, hx, mem_missingList σ hσ expected actual,
      mem_missingList σ hσ actual expected, rfl⟩

/-- C7 witness: concrete lists with a missing-only difference classify as the
missing kind. -/
theorem analyzeSliceDrift_set_difference_witness :
    (analyzeSliceDrift idIter ["sg-1", "sg-2"] ["sg-2"]).1 = DriftTypeMissingInstance
  ∧ (analyzeSliceDrift idIter ["sg-1", "sg-2"] ["sg-2"]).2 = "missing values: [sg-1]" := by
  have h := (analyzeSliceDrift_set_difference idIter
    (fun l => List.Perm.refl l) ["sg-1", "sg-2"] ["sg-2"]).1 (by decide) (by decide)
  refine ⟨h.1, ?_⟩
  decide

/-! ## Claim C1 -/

theorem collectConcurrent_reports :
    ∀ l : List (Except ServiceError DriftReport),
      (collectConcurrent l).1 = l.filterMap outcomeReport?
  | [] => rfl
  | .ok r :: rest => by
    simp [collectConcurrent, outcomeReport?, collectConcurrent_reports rest]
  | .error e :: rest => by
    simp [collectConcurrent, outcomeReport?, collectConcurrent_reports rest]

theorem collectConcurrent_msgs :
    ∀ l : List (Except ServiceError DriftReport),
      (collectConcurrent l).2.1 = l.filterMap outcomeMessage?
  | [] => rfl
  | .ok r :: rest => by
    simp [collectConcurrent, outcomeMessage?, collectConcurrent_msgs rest]
  | .error e :: rest => by
    simp [collectConcurrent, outcomeMessage?, collectConcurrent_msgs rest]

theorem batchLoop_reports (σ : List String → List String)
    (eSt aSt : List (String × InstanceState)) (attrs : List String) :
    ∀ ids : List String,
      (batchLoop σ eSt aSt attrs ids).1 = ids.filterMap (batchOutcome? σ eSt aSt attrs)
  | [] => rfl
  | id :: rest => by
    have ih := batchLoop_reports σ eSt aSt attrs rest
    unfold batchLoop batchOutcome?
    cases h1 : eSt.lookup id with
    | none => simpa [h1, List.filterMap_cons, batchOutcome?] using ih
    | some exp =>
      cases h2 : aSt.lookup id <;>
        simpa [h1, h2, List.filterMap_cons, batchOutcome?] using ih

theorem batchLoop_msgs (σ : List String → List String)
    (eSt aSt : List (String × InstanceState)) (attrs : List String) :
    ∀ ids : List String,
      (batchLoop σ eSt aSt attrs ids).2 = ids.filterMap (batchMessage? eSt aSt)
  | [] => rfl
  | id :: rest => by
    have ih := batchLoop_msgs σ eSt aSt attrs rest
    unfold batchLoop batchMessage?
    cases h1 : eSt.lookup id with
    | none => simpa [h1, List.filterMap_cons, batchMessage?] using ih
    | some exp =>
      cases h2 : aSt.lookup id <;>
        simpa [h1, h2, List.filterMap_cons, batchMessage?] using ih

/-- C1: in both modes a failure for one id never drops or invalidates the
reports of other ids.  Concurrent mode returns exactly the reports of the
successful workers (in arrival order) and batch mode exactly the reports of
the ids resolving on both sides (in request order); in either mode the
aggregate error is non-nil whenever at least one id failed. -/
theorem detectDrift_no_dropped_reports (σ : List String → List String)
    (expectedStates : List (String × InstanceState))
    (fetchOne : String → Except EC2Error InstanceState)
    (batchFetch : List String → List (String × InstanceState))
    (attrs : List String) (arrival instanceIDs : List String) :
    ((detectDriftConcurrent σ expectedStates fetchOne attrs arrival).reports
      = arrival.filterMap (fun id => outcomeReport? (workerResult σ expectedStates fetchOne attrs id)))
  ∧ ((∃ id ∈ arrival, outcomeReport? (workerResult σ expectedStates fetchOne attrs id) = none)
      → (detectDriftConcurrent σ expectedStates fetchOne attrs arrival).err ≠ none)
  ∧ ((detectDriftBatch σ expectedStates batchFetch attrs instanceIDs).reports
      = instanceIDs.filterMap (batchOutcome? σ expectedStates (batchFetch instanceIDs) attrs))
  ∧ ((∃ id ∈ instanceIDs, batchOutcome? σ expectedStates (batchFetch instanceIDs) attrs id = none)
      → (detectDriftBatch σ expectedStates batchFetch attrs instanceIDs).err ≠ none) := by
  refine ⟨?_, ?_, ?_, ?_⟩
  · simp only [detectDriftConcurrent, collectConcurrent_reports, List.filterMap_map]
    rfl
  · rintro ⟨id, hid, hnone⟩
    simp only [detectDriftConcurrent]
    have hmsg : ∃ m, outcomeMessage? (workerResult σ expectedStates fetchOne attrs id) = some m := by
      cases h : workerResult σ expectedStates fetchOne attrs id with
      | ok r => rw [h] at hnone; exact absurd hnone (by simp [outcomeReport?])
      | error e => exact ⟨e.message, by simp [h, outcomeMessage?]⟩
    obtain ⟨m, hm⟩ := hmsg
    have hmem : m ∈ (collectConcurrent
        (arrival.map (workerResult σ expectedStates fetchOne attrs))).2.1 := by
      rw [collectConcurrent_msgs, List.filterMap_map]
      exact List.mem_filterMap.mpr ⟨id, hid, hm⟩
    rw [if_pos (List.length_pos.mpr (List.ne_nil_of_mem hmem))]
    simp
  · simp only [detectDriftBatch, batchLoop_reports]
  · rintro ⟨id, hid, hnone⟩
    simp only [detectDriftBatch]
    have hmsg : ∃ m, batchMessage? expectedStates (batchFetch instanceIDs) id = some m := by
      unfold batchOutcome? at hnone
      unfold batchMessage?
      cases h1 : expectedStates.lookup id with
      | none => exact ⟨_, rfl⟩
      | some exp =>
        cases h2 : (batchFetch instanceIDs).lookup id with
        | none => exact ⟨_, rfl⟩
        | some act => rw [h1, h2] at hnone; exact absurd hnone (by simp)
    obtain ⟨m, hm⟩ := hmsg
    have hmem : m ∈ (batchLoop σ expectedStates (batchFetch instanceIDs) attrs instanceIDs).2 := by
      rw [batchLoop_msgs]
      exact List.mem_filterMap.mpr ⟨id, hid, hm⟩
    rw [if_pos (List.length_pos.mpr (List.ne_nil_of_mem hmem))]
    simp

/-- C1 witness: for ids `{i-a, i-b}` where `i-a` fetches successfully and
`i-b` fails non-retryably, concurrent mode returns exactly one report — the
one for `i-a` — together with a non-nil aggregate error. -/
theorem detectDrift_no_dropped_reports_witness :
    (detectDriftConcurrent idIter expStAB fetchAB ["InstanceType"] ["i-a", "i-b"]).reports.length = 1
  ∧ ((detectDriftConcurrent idIter expStAB fetchAB ["InstanceType"] ["i-a", "i-b"]).reports.map
        DriftReport.InstanceID) = ["i-a"]
  ∧ (detectDriftConcurrent idIter expStAB fetchAB ["InstanceType"] ["i-a", "i-b"]).err ≠ none
  ∧ authErrB.IsRetryable = false := by
  have h := detectDrift_no_dropped_reports idIter expStAB fetchAB batchNone
    ["InstanceType"] ["i-a", "i-b"] ["i-a", "i-b"]
  refine ⟨?_, ?_, h.2.1 ⟨"i-b", by decide, by decide⟩, by decide⟩
  · rw [h.1]
    decide
  · rw [h.1]
    decide

/-! ## Claim C3 -/

theorem concurrentCalls_all_in_baseline (expSt : List (String × InstanceState)) :
    ∀ arrival : List String, (∀ id ∈ arrival, (expSt.lookup id).isSome) →
      arrival.filterMap (fun id =>
          if (expSt.lookup id).isSome then some (FetchCall.one id) else none)
        = arrival.map FetchCall.one
  | [], _ => rfl
  | id :: rest, h => by
    have hid := h id (List.mem_cons_self id rest)
    have ih := concurrentCalls_all_in_baseline expSt rest
      (fun i hi => h i (List.mem_cons_of_mem _ hi))
    simp [List.filterMap_cons, hid, ih]

/-- C3: `DetectDrift` selects batch mode exactly when the resolved id count
exceeds 10.  At most 10 ids the result is the concurrent-mode result, and
with every id in the baseline it performs one `GetInstanceState` call per id;
at 11 ids the result is the batch-mode result, performed with a single
`GetInstanceStatesBatch` call. -/
theorem detectDrift_mode_threshold (σ : List String → List String)
    (expectedStates : List (String × InstanceState))
    (fetchOne : String → Except EC2Error InstanceState)
    (batchFetch : List String → List (String × InstanceState))
    (attrs : List String) (instanceIDs arrival : List String) :
    (instanceIDs.length ≤ 10 →
      DetectDrift σ expectedStates fetchOne batchFetch attrs instanceIDs arrival
        = detectDriftConcurrent σ expectedStates fetchOne attrs arrival)
  ∧ (10 < instanceIDs.length →
      DetectDrift σ expectedStates fetchOne batchFetch attrs instanceIDs arrival
        = detectDriftBatch σ expectedStates batchFetch attrs instanceIDs)
  ∧ (instanceIDs.length = 10 → (∀ id ∈ arrival, (expectedStates.lookup id).isSome) →
      (DetectDrift σ expectedStates fetchOne batchFetch attrs instanceIDs arrival).calls
        = arrival.map FetchCall.one)
  ∧ (instanceIDs.length = 11 →
      (DetectDrift σ expectedStates fetchOne batchFetch attrs instanceIDs arrival).calls
        = [FetchCall.batch instanceIDs]) := by
  refine ⟨?_, ?_, ?_, ?_⟩
  · intro h
    unfold DetectDrift
    rw [if_neg (by omega)]
  · intro h
    unfold DetectDrift
    rw [if_pos h]
  · intro h10 hin
    unfold DetectDrift
    rw [if_neg (by omega)]
    exact concurrentCalls_all_in_baseline expectedStates arrival hin
  · intro h11
    unfold DetectDrift
    rw [if_pos (by omega)]
    rfl

/-- C3 witness: ten concrete baseline ids produce one per-id call each
(concurrent mode); eleven produce a single batch call. -/
theorem detectDrift_mode_threshold_witness :
    (DetectDrift idIter baseline11 fetchOK batchNone ["InstanceType"] ids10 ids10).calls
      = ids10.map FetchCall.one
  ∧ (DetectDrift idIter baseline11 fetchOK batchNone ["InstanceType"] ids11 ids11).calls
      = [FetchCall.batch ids11] := by
  have h₁ := detectDrift_mode_threshold idIter baseline11 fetchOK batchNone
    ["InstanceType"] ids10 ids10
  have h₂ := detectDrift_mode_threshold idIter baseline11 fetchOK batchNone
    ["InstanceType"] ids11 ids11
  exact ⟨h₁.2.2.1 (by decide) (by decide), h₂.2.2.2 (by decide)⟩

/-! ## Claim C6 -/

/-- C6 counterexample: with two failed ids neither of which is
authentication-class, the aggregate message is just the count — it never
mentions authentication, so it does not call out how many of the failures
were authentication-class. -/
theorem concurrent_error_no_auth_callout :
    (concurrentFailures idIter expStAB fetchAllNet ["InstanceType"] ["i-a", "i-b"]).length = 2
  ∧ concurrentAuthCount idIter expStAB fetchAllNet ["InstanceType"] ["i-a", "i-b"] = 0
  ∧ (detectDriftConcurrent idIter expStAB fetchAllNet ["InstanceType"] ["i-a", "i-b"]).err
      = some "2 instance(s) failed"
  ∧ strContains (toLowerStr "2 instance(s) failed") "auth" = false := by
  decide

/-- C6 amended: in concurrent mode, when exactly one id fails the aggregate
error message is that id's own error message verbatim; when two or more fail
the message states the failure count and, when at least one of the failures
is authentication-class, additionally calls out how many were (with zero
authentication failures the count-only message is used). -/
theorem concurrent_aggregate_error_message (σ : List String → List String)
    (expectedStates : List (String × InstanceState))
    (fetchOne : String → Except EC2Error InstanceState)
    (attrs : List String) (arrival : List String) (m : String) :
    (concurrentFailures σ expectedStates fetchOne attrs arrival = [m] →
      (detectDriftConcurrent σ expectedStates fetchOne attrs arrival).err = some m)
  ∧ (2 ≤ (concurrentFailures σ expectedStates fetchOne attrs arrival).length →
     0 < concurrentAuthCount σ expectedStates fetchOne attrs arrival →
      (detectDriftConcurrent σ expectedStates fetchOne attrs arrival).err
        = some (toString (concurrentFailures σ expectedStates fetchOne attrs arrival).length
            ++ " instance(s) failed ("
            ++ toString (concurrentAuthCount σ expectedStates fetchOne attrs arrival)
            ++ " authentication errors)"))
  ∧ (2 ≤ (concurrentFailures σ expectedStates fetchOne attrs arrival).length →
     concurrentAuthCount σ expectedStates fetchOne attrs arrival = 0 →
      (detectDriftConcurrent σ expectedStates fetchOne attrs arrival).err
        = some (toString (concurrentFailures σ expectedStates fetchOne attrs arrival).length
            ++ " instance(s) failed")) := by
  simp only [concurrentFailures, concurrentAuthCount, detectDriftConcurrent,
    concurrentSummary]
  refine ⟨?_, ?_, ?_⟩
  · intro h
    rw [h]
    simp
  · intro hlen hauth
    rw [if_pos (by omega), if_neg (by omega), if_pos hauth]
  · intro hlen hauth
    rw [if_pos (by omega), if_neg (by omega), if_neg (by omega)]

/-- C6 amended, witness: one concrete failing id surfaces its message
verbatim, and two concrete authentication failures surface the count plus the
authentication callout. -/
theorem concurrent_aggregate_error_message_witness :
    (detectDriftConcurrent idIter expStAB fetchAB ["InstanceType"] ["i-b"]).err
      = some (ServiceError.fetch authErrB).message
  ∧ (detectDriftConcurrent idIter expStAB fetchAllAuth ["InstanceType"] ["i-a", "i-b"]).err
      = some "2 instance(s) failed (2 authentication errors)" := by
  have h₁ := concurrent_aggregate_error_message idIter expStAB fetchAB
    ["InstanceType"] ["i-b"] (ServiceError.fetch authErrB).message
  have h₂ := concurrent_aggregate_error_message idIter expStAB fetchAllAuth
    ["InstanceType"] ["i-a", "i-b"] ""
  refine ⟨h₁.1 (by decide), ?_⟩
  have := h₂.2.1 (by decide) (by decide)
  rw [this]
  decide

/-! ## Claim C10 -/

theorem retryLoop_all_retryable (instanceID : String)
    (fetch : Nat → Except EC2Error InstanceState) :
    ∀ (r attempt backoff : Nat) (lastErr : Option EC2Error),
      (∀ k, attempt ≤ k → k < attempt + r → ∃ e, fetch k = .error e ∧ e.IsRetryable = true) →
      ∃ t, (retryLoop instanceID fetch r attempt backoff lastErr).result = .error t
        ∧ t.ErrorType = ErrorTypeUnknown ∧ t.IsRetryable = false
  | 0, attempt, backoff, lastErr, _ => ⟨_, rfl, rfl, rfl⟩
  | r + 1, attempt, backoff, lastErr, h => by
    obtain ⟨e, he, hret⟩ := h attempt (Nat.le_refl _) (by omega)
    obtain ⟨t, ht, h1, h2⟩ := retryLoop_all_retryable instanceID fetch r (attempt + 1)
      (min (backoff * 2) maxBackoff) (some e) (fun k hk1 hk2 => h k (by omega) (by omega))
    refine ⟨t, ?_, h1, h2⟩
    unfold retryLoop
    rw [he]
    simp [hret, ht]

/-- C10: whenever `GetInstanceState` exhausts all 6 attempts (every attempt
failed with a retryable error), the terminal error is tagged with class
UNKNOWN and retryable = false regardless of the class of the last underlying
failure, and `IsAuthError` on it is false. -/
theorem getInstanceState_exhaustion_unknown (instanceID : String)
    (fetch : Nat → Except EC2Error InstanceState)
    (h : ∀ k, k ≤ maxRetries → ∃ e, fetch k = .error e ∧ e.IsRetryable = true) :
    ∃ t, (GetInstanceState instanceID fetch).result = .error t
      ∧ t.ErrorType = ErrorTypeUnknown ∧ t.IsRetryable = false
      ∧ IsAuthError (.fetch t) = false := by
  obtain ⟨t, ht, h1, h2⟩ := retryLoop_all_retryable instanceID fetch (maxRetries + 1) 0
    initialBackoff none (fun k hk1 hk2 => h k (by omega))
  refine ⟨t, ht, h1, h2, ?_⟩
  simp [IsAuthError, h1, ErrorTypeUnknown, ErrorTypeAuthentication]

/-- C10 witness: six consecutive THROTTLING failures surface as an
UNKNOWN-class, non-retryable terminal error that is not an auth error. -/
theorem getInstanceState_exhaustion_unknown_witness :
    ∃ t, (GetInstanceState "i-1" fetchAlwaysThrottle).result = .error t
      ∧ t.ErrorType = ErrorTypeUnknown ∧ t.IsRetryable = false
      ∧ IsAuthError (.fetch t) = false :=
  getInstanceState_exhaustion_unknown "i-1" fetchAlwaysThrottle
    (fun k _ => ⟨thrErr, rfl, by decide⟩)

end Firefly
